import Mathlib

/-
Verification development for the crawltree crawler.

The definitions below are a shallow embedding of the Rust sources:
  src/filter.rs           (UrlFilter, should_crawl, normalize_url)
  src/parsers/mod.rs      (ParserType, Parser dispatch)
  src/parsers/text.rs     (plain-text extraction pipeline)
  src/crawlers/web.rs     (worker loop, visited set, frontier gate,
                           process_url retry logic, watchdog, permits)

Rust strings are Lean Strings; Rust string primitives (contains,
ends_with, starts_with, trim, lines, split, split_whitespace, join)
are re-implemented below as structurally recursive functions over
String.data so that every concrete claim instance evaluates inside
the kernel.  Compiled regexes are modelled as boolean matchers
(String to Bool), the compiled form the Rust code only ever queries
through Regex::is_match.
-/

/-- Does the character list start with the given pattern list?  Models
Rust str::starts_with restricted to string patterns. -/
def listStartsWith : List Char → List Char → Bool
  | _, [] => true
  | [], _ :: _ => false
  | a :: as, b :: bs => a == b && listStartsWith as bs

/-- Does the character list contain the pattern list as a contiguous
sublist?  Models Rust str::contains for string patterns. -/
def listContainsSub : List Char → List Char → Bool
  | [], pat => pat.isEmpty
  | c :: rest, pat => listStartsWith (c :: rest) pat || listContainsSub rest pat

/-- Rust str::contains for string needles. -/
def strContains (s pat : String) : Bool :=
  listContainsSub s.data pat.data

/-- Rust str::starts_with for string patterns. -/
def strStartsWith (s pat : String) : Bool :=
  listStartsWith s.data pat.data

/-- Rust str::ends_with for string patterns. -/
def strEndsWith (s pat : String) : Bool :=
  listStartsWith s.data.reverse pat.data.reverse

/-- ASCII whitespace predicate; the inputs of this development are
ASCII, where Rust char::is_whitespace coincides with this set. -/
def charWs (c : Char) : Bool :=
  c == ' ' || c == '\t' || c == '\n' || c == '\r'

/-- Rust str::trim (ASCII fragment). -/
def strTrim (s : String) : String :=
  ⟨((s.data.dropWhile charWs).reverse.dropWhile charWs).reverse⟩

/-- Rust str::is_empty. -/
def strIsEmpty (s : String) : Bool :=
  s.data.isEmpty

/-- Splits a character list at every character satisfying the predicate
(the separators are consumed); empty segments are kept, mirroring
Rust str::split. -/
def splitOnPred (p : Char → Bool) : List Char → List (List Char)
  | [] => [[]]
  | c :: rest =>
    if p c then
      [] :: splitOnPred p rest
    else
      match splitOnPred p rest with
      | [] => [[c]]
      | l :: ls => (c :: l) :: ls

/-- Rust str::split_whitespace: split on whitespace and drop empty
segments. -/
def splitWhitespaceR (s : String) : List String :=
  ((splitOnPred charWs s.data).filter (fun l => !l.isEmpty)).map
    (fun l => ⟨l⟩)

/-- Joins a list of strings with a separator; models Rust
slice::join / str::repeat-free concatenation used throughout
src/parsers/text.rs. -/
def joinWithSep (sep : String) : List String → String
  | [] => ""
  | [x] => x
  | x :: y :: xs => x ++ sep ++ joinWithSep sep (y :: xs)

/-- Splits on the two-character separator of a double newline; this is
Rust str::split applied to the separator string of two newlines, the
only string separator src/parsers/text.rs ever splits on. -/
def splitOnNN : List Char → List (List Char)
  | [] => [[]]
  | '\n' :: '\n' :: rest => [] :: splitOnNN rest
  | c :: rest =>
    match splitOnNN rest with
    | [] => [[c]]
    | l :: ls => (c :: l) :: ls

/-- String version of splitOnNN. -/
def strSplitNN (s : String) : List String :=
  (splitOnNN s.data).map (fun l => ⟨l⟩)

/-- Splits a character list at newline characters. -/
def splitLinesAux : List Char → List (List Char)
  | [] => [[]]
  | c :: rest =>
    if c == '\n' then
      [] :: splitLinesAux rest
    else
      match splitLinesAux rest with
      | [] => [[c]]
      | l :: ls => (c :: l) :: ls

/-- Rust str::lines: split at newlines, strip a trailing carriage
return from each line, and drop the final empty segment produced by a
trailing newline. -/
def rustLines (s : String) : List String :=
  let parts := (splitLinesAux s.data).map
    (fun l => if listStartsWith l.reverse ['\r'] then l.dropLast else l)
  let parts' := match parts.getLast? with
    | some [] => parts.dropLast
    | _ => parts
  parts'.map (fun l => ⟨l⟩)

/-
URL model.  The url crate's Url is modelled by its components; the
crawler reads a Url only through domain(), path(), as_str() and
set_fragment(None), so scheme, host, path, query and fragment are the
load-bearing parts (userinfo and port do not occur in the claims'
instances and are omitted).
-/

/-- Component model of a parsed absolute URL. -/
structure Url where
  scheme : String
  host : Option String
  path : String
  query : Option String
  fragment : Option String
deriving DecidableEq, Repr

/-- Url::as_str: the serialized form of the URL. -/
def Url.render (u : Url) : String :=
  u.scheme ++ "://" ++
  (match u.host with | some h => h | none => "") ++
  u.path ++
  (match u.query with | some q => "?" ++ q | none => "") ++
  (match u.fragment with | some f => "#" ++ f | none => "")

/-- Url::domain. -/
def Url.domain (u : Url) : Option String := u.host

/-
src/filter.rs: UrlFilter.  include_patterns / exclude_patterns are
compiled once into regex matchers; the compiled matcher is modelled as
a boolean function on the serialized URL.
-/

/-- UrlFilter from src/filter.rs: configuration plus compiled pattern
matchers (fields allow_external, required_domain, required_path_prefix
of UrlFilterConfig, and the compiled include_regexes /
exclude_regexes). -/
structure UrlFilter where
  allowExternal : Bool
  requiredDomain : Option String
  requiredPathStart : Option String
  includeMatchers : List (String → Bool)
  excludeMatchers : List (String → Bool)

/-- UrlFilter::is_in_domain_scope (src/filter.rs lines 149-166). -/
def is_in_domain_scope (f : UrlFilter) (url : Url) : Bool :=
  if f.allowExternal && f.requiredDomain.isNone then
    true
  else
    match f.requiredDomain with
    | some required =>
      match url.domain with
      | some d => d == required
      | none => false
    | none => false

/-- UrlFilter::is_in_path_scope (src/filter.rs lines 169-175). -/
def is_in_path_scope (f : UrlFilter) (url : Url) : Bool :=
  match f.requiredPathStart with
  | some p => strStartsWith url.path p
  | none => true

/-- UrlFilter::should_crawl (src/filter.rs lines 92-127).  The two
for-loops with early return are the two List.any tests. -/
def should_crawl (f : UrlFilter) (url : Url) : Bool :=
  if !is_in_domain_scope f url then
    false
  else if !is_in_path_scope f url then
    false
  else if f.excludeMatchers.any (fun r => r url.render) then
    false
  else if !f.includeMatchers.isEmpty &&
      !(f.includeMatchers.any (fun r => r url.render)) then
    false
  else
    true

/-- UrlFilter::normalize_url (src/filter.rs lines 178-182): clone the
URL and set_fragment(None). -/
def normalize_url (_f : UrlFilter) (url : Url) : Url :=
  { url with fragment := none }

/-- Matcher compiled from the regex pattern /docs/.*\.html$ : the
string ends with ".html" and contains "/docs/" ending no later than
five characters before the end. -/
def docsHtmlMatcher (s : String) : Bool :=
  strEndsWith s ".html" &&
    strContains ⟨s.data.take (s.data.length - 5)⟩ "/docs/"

/-- Matcher compiled from the regex pattern /docs/draft/ (unanchored
substring match). -/
def docsDraftMatcher (s : String) : Bool :=
  strContains s "/docs/draft/"

/-- Matcher compiled from the default asset exclude regex
\.(jpg|jpeg|png|gif|css|js|ico|woff|woff2|ttf|eot|svg|pdf)$ added in
create_url_filter (src/crawlers/web.rs lines 71-72). -/
def defaultAssetMatcher (s : String) : Bool :=
  [".jpg", ".jpeg", ".png", ".gif", ".css", ".js", ".ico", ".woff",
   ".woff2", ".ttf", ".eot", ".svg", ".pdf"].any
    (fun e => strEndsWith s e)

/-
src/parsers/mod.rs: content classification and parser dispatch.
-/

/-- ParserType (src/parsers/mod.rs lines 8-18). -/
inductive ParserType
  | Html
  | Text
  | Pdf
  | Other
deriving DecidableEq, Repr

/-- ParserType::from_url (src/parsers/mod.rs lines 22-52): classify
content kind from the URL string alone. -/
def ParserType.from_url (url : String) : ParserType :=
  if strEndsWith url ".txt" then
    ParserType.Text
  else if strEndsWith url ".yaml" || strEndsWith url ".yml" then
    ParserType.Text
  else if strEndsWith url ".pdf" then
    ParserType.Pdf
  else if strContains url "/_sources/" then
    ParserType.Text
  else if strEndsWith url ".jpg" || strEndsWith url ".jpeg" ||
      strEndsWith url ".png" || strEndsWith url ".gif" ||
      strEndsWith url ".css" || strEndsWith url ".js" then
    ParserType.Other
  else
    ParserType.Html

/-- ParserType::should_extract_links (src/parsers/mod.rs lines 55-57):
matches!(self, ParserType::Html). -/
def ParserType.should_extract_links : ParserType → Bool
  | ParserType.Html => true
  | _ => false

/-- ParseResult (src/parsers/mod.rs lines 61-66). -/
structure ParseResult where
  content : String
  links : List String
deriving DecidableEq, Repr

/-
src/parsers/text.rs: the plain-text extraction pipeline.
-/

/-- TextParserOptions (src/parsers/text.rs lines 5-15). -/
structure TextParserOptions where
  preserve_paragraphs : Bool
  preserve_line_breaks : Bool
  normalize_whitespace : Bool
  detect_urls : Bool
deriving DecidableEq, Repr

/-- Default for TextParserOptions (src/parsers/text.rs lines 17-26). -/
def defaultTextOptions : TextParserOptions :=
  ⟨false, false, true, true⟩

/-- The options scrape_text_file and scrape_html_page pass to the text
parser (src/crawlers/web.rs lines 652-657 and 703-708). -/
def crawlTextOptions : TextParserOptions :=
  ⟨true, false, true, true⟩

/-- The loop body of split_into_paragraphs (src/parsers/text.rs lines
59-85): lines still to process, paragraphs accumulated so far, current
paragraph. -/
def splitParasAux : List String → List (List String) → List String →
    List (List String)
  | [], paragraphs, current =>
    if current.isEmpty then paragraphs else paragraphs ++ [current]
  | line :: rest, paragraphs, current =>
    let trimmed := strTrim line
    if strIsEmpty trimmed then
      if current.isEmpty then
        splitParasAux rest paragraphs []
      else
        splitParasAux rest (paragraphs ++ [current]) []
    else
      splitParasAux rest paragraphs (current ++ [trimmed])

/-- split_into_paragraphs (src/parsers/text.rs lines 59-85). -/
def split_into_paragraphs (text : String) : List (List String) :=
  splitParasAux (rustLines text) [] []

/-- process_paragraph (src/parsers/text.rs lines 96-108). -/
def process_paragraph (paragraph : List String)
    (options : TextParserOptions) : String :=
  if paragraph.isEmpty then
    ""
  else if options.preserve_line_breaks then
    joinWithSep "\n" paragraph
  else
    joinWithSep " " paragraph

/-- process_paragraphs (src/parsers/text.rs lines 88-93). -/
def process_paragraphs (paragraphs : List (List String))
    (options : TextParserOptions) : List String :=
  paragraphs.map (fun para => process_paragraph para options)

/-- normalize_whitespace_in_segment (src/parsers/text.rs lines
177-179). -/
def normalize_whitespace_in_segment (segment : String) : String :=
  joinWithSep " " (splitWhitespaceR segment)

/-- normalize_whitespace (src/parsers/text.rs lines 128-174). -/
def normalize_whitespace (text : String)
    (options : TextParserOptions) : String :=
  if !options.normalize_whitespace then
    text
  else if !options.preserve_paragraphs && !options.preserve_line_breaks then
    joinWithSep " " (splitWhitespaceR text)
  else if options.preserve_paragraphs && !options.preserve_line_breaks then
    joinWithSep "\n\n" ((strSplitNN text).map normalize_whitespace_in_segment)
  else if options.preserve_line_breaks then
    joinWithSep "\n" ((rustLines text).map
      (fun line =>
        if strIsEmpty (strTrim line) then line
        else normalize_whitespace_in_segment line))
  else
    text

/-- join_paragraphs (src/parsers/text.rs lines 111-125). -/
def join_paragraphs (paragraphs : List String)
    (options : TextParserOptions) : String :=
  if paragraphs.isEmpty then
    ""
  else
    let joined :=
      if options.preserve_paragraphs then
        joinWithSep "\n\n" paragraphs
      else
        joinWithSep " " paragraphs
    normalize_whitespace joined options

/-- text::parse_with_options (src/parsers/text.rs lines 41-52); the
result always carries no links (ParseResult::content_only). -/
def parse_with_options (text : String)
    (options : TextParserOptions) : ParseResult :=
  if strIsEmpty (strTrim text) then
    ⟨"", []⟩
  else
    let paragraphs := split_into_paragraphs text
    let processed := process_paragraphs paragraphs options
    ⟨join_paragraphs processed options, []⟩

/-- Parser::parse_with_text_options (src/parsers/mod.rs lines
104-121).  The HTML branch delegates to the external scraper-based
extractor (src/parsers/html.rs), which is the Extractor boundary of
the spec; it is passed in as a function. -/
def parseWithTextOptions (htmlExtract : String → ParseResult)
    (content : String) (pt : ParserType)
    (text_options : TextParserOptions) : ParseResult :=
  match pt with
  | ParserType.Html => htmlExtract content
  | ParserType.Text => parse_with_options content text_options
  | ParserType.Pdf => ⟨"PDF parsing not implemented yet", []⟩
  | ParserType.Other => parse_with_options content text_options

/-- Parser::parse_from_url_with_text_options (src/parsers/mod.rs lines
130-137). -/
def parse_from_url_with_text_options (htmlExtract : String → ParseResult)
    (content : String) (url : String)
    (text_options : TextParserOptions) : ParseResult :=
  parseWithTextOptions htmlExtract content (ParserType.from_url url)
    text_options

/-- PageData (src/results.rs): the PageRecord emitted per fetched
page. -/
structure PageData where
  url : String
  title : Option String
  content : String
  links : List String
deriving DecidableEq, Repr

/-- The record scrape_text_file builds from a successfully read source
(src/crawlers/web.rs lines 650-676): parse with crawlTextOptions and
package the result. -/
def scrape_text_file_record (htmlExtract : String → ParseResult)
    (url source : String) : PageData :=
  let parser_result :=
    parse_from_url_with_text_options htmlExtract source url
      crawlTextOptions
  ⟨url, none, parser_result.content, parser_result.links⟩

/-
src/crawlers/web.rs: process_url retry logic.

scrape returns Option PageData (None on any failure, including the
session-lost case, which handle_navigation_error reduces to a log line
and None, src/crawlers/web.rs lines 733-750).  The remote transport is
modelled as an oracle giving the outcome of the nth scrape call and
the nth reconnect call for the URL being processed.
-/

/-- Transport oracle for one processed URL: outcome of the nth call to
scrape and of the nth call to attempt_reconnect. -/
structure ScrapeOracle where
  scrapeOutcome : Nat → Option PageData
  reconnectOutcome : Nat → Bool

/-- Observable outcome of process_url: its return value and how many
attempt_reconnect and scrape calls it made. -/
structure ProcessUrlRun where
  result : Option PageData
  reconnectCalls : Nat
  scrapeCalls : Nat
deriving DecidableEq, Repr

/-- process_url (src/crawlers/web.rs lines 471-502), instruction for
instruction: reconnect_attempted starts false; for attempt in 0..2,
a retry (attempt greater than 0) first calls attempt_reconnect and
breaks if that fails; then scrape runs; the loop breaks when the
scrape succeeded or reconnect_attempted is false. -/
def process_url (t : ScrapeOracle) : ProcessUrlRun := Id.run do
  let mut reconnect_attempted := false
  let mut scrape_result : Option PageData := none
  let mut reconnects := 0
  let mut scrapes := 0
  for attempt in [0, 1] do
    if attempt > 0 then
      reconnect_attempted := t.reconnectOutcome reconnects
      reconnects := reconnects + 1
      if !reconnect_attempted then
        break
    scrape_result := t.scrapeOutcome scrapes
    scrapes := scrapes + 1
    if scrape_result.isSome || !reconnect_attempted then
      break
  return ⟨scrape_result, reconnects, scrapes⟩

/-- A transport whose every call fails with the session-lost
signature: scrape always returns None (handle_navigation_error logs
"lost session" and yields None), reconnect always succeeds. -/
def alwaysSessionLost : ScrapeOracle :=
  ⟨fun _ => none, fun _ => true⟩

/-
src/crawlers/web.rs: visited set, frontier gate and a sequential crawl
run model.

The visited set (HashSet of strings under one tokio Mutex) is a list
of Url values; list membership models string-set membership, Url
values standing for their serialized strings.  The frontier (bounded
mpsc channel) is a FIFO list.  All visited-set accesses in the source
take the same Mutex, so any concurrent execution is a serialization of
the atomic blocks modelled below.
-/

/-- mark_url_as_visited (src/crawlers/web.rs lines 456-468): one
atomic check-then-insert under the visited-set lock; returns whether
the URL was fresh together with the updated set. -/
def mark_url_as_visited (url : Url) (visited : List Url) :
    Bool × List Url :=
  if url ∈ visited then
    (false, visited)
  else
    (true, url :: visited)

/-- The per-link enqueue gate inside process_discovered_page
(src/crawlers/web.rs lines 553-581), after the raw link has been
resolved against the base: apply should_crawl, normalize, read the
visited set under its lock (contains check only, no insert), and send
the normalized URL to the frontier when unseen.  State is (visited
set, frontier queue). -/
def enqueue_discovered_link (f : UrlFilter) (link : Url)
    (st : List Url × List Url) : List Url × List Url :=
  let visited := st.1
  let queue := st.2
  if !should_crawl f link then
    (visited, queue)
  else
    let normalized := normalize_url f link
    let should_send := !(normalized ∈ visited : Bool)
    if should_send then
      (visited, queue ++ [normalized])
    else
      (visited, queue)

/-- Crawl-engine state: visited set, frontier queue, and the urls of
the PageData records emitted to the result channel, in emission
order. -/
structure CrawlState where
  visited : List Url
  queue : List Url
  emitted : List Url
deriving DecidableEq, Repr

/-- One worker iteration of worker_processing_loop (src/crawlers/web.rs
lines 336-389) on the state, with the web modelled as a function from
URL to fetch outcome (none is a failed scrape, some links is a
successful scrape whose discovered links resolve to the given Urls):
dequeue, mark_url_as_visited (skip if seen), scrape via process_url,
then process_discovered_page (emit the record, run every link through
the enqueue gate). -/
def crawl_step (web : Url → Option (List Url)) (f : UrlFilter)
    (s : CrawlState) : CrawlState :=
  match s.queue with
  | [] => s
  | url :: rest =>
    let marked := mark_url_as_visited url s.visited
    if !marked.1 then
      { s with queue := rest }
    else
      match web url with
      | none =>
        ⟨marked.2, rest, s.emitted⟩
      | some links =>
        let st :=
          links.foldl (fun st l => enqueue_discovered_link f l st)
            (marked.2, rest)
        ⟨st.1, st.2, s.emitted ++ [url]⟩

/-- Iterated crawl steps. -/
def run_crawl (web : Url → Option (List Url)) (f : UrlFilter) :
    Nat → CrawlState → CrawlState
  | 0, s => s
  | n + 1, s => run_crawl web f n (crawl_step web f s)

/-- start (src/crawlers/web.rs lines 17-56): the seed URL is sent to
the frontier exactly as configured (crawl_tx.send(config.start_url),
line 36) with no should_crawl check and no normalize_url call. -/
def crawl_start (seed : Url) : CrawlState :=
  ⟨[], [seed], []⟩

/-- The fetch decisions produced by an arbitrary global sequence of
mark_url_as_visited calls (the order the visited-set Mutex serializes
them in, across all workers): the sublist of URLs whose call returned
true, i.e. the URLs actually fetched. -/
def run_marks : List Url → List Url → List Url
  | [], _ => []
  | u :: rest, visited =>
    let marked := mark_url_as_visited u visited
    if marked.1 then
      u :: run_marks rest marked.2
    else
      run_marks rest marked.2

/-
src/crawlers/web.rs: throttle permit extent inside one worker
iteration.

In worker_processing_loop the permit is bound as
let _permit = web_semaphore.acquire() (line 343); a named binding in
Rust lives to the end of its enclosing scope, which is the end of the
while-loop iteration, after process_discovered_page has returned.  The
iteration is modelled as its sequence of operations with the permit
acquire/release placed where the binding is created and dropped.
-/

/-- The operations of one iteration of worker_processing_loop, in
program order (src/crawlers/web.rs lines 336-389). -/
inductive WorkerOp
  | acquirePermit
  | connectClient
  | fetchUrl
  | emitRecord
  | enqueueLinks
  | dropPermit
deriving DecidableEq, Repr

/-- One worker iteration that fetches a page successfully: acquire the
permit (line 343), lazily connect (lines 347-356), process_url (line
362), then process_discovered_page, which sends the PageData (line
540) and enqueues the discovered links (lines 553-581); the _permit
binding is dropped at the end of the iteration scope (line 389). -/
def worker_iteration : List WorkerOp :=
  [WorkerOp.acquirePermit, WorkerOp.connectClient, WorkerOp.fetchUrl,
   WorkerOp.emitRecord, WorkerOp.enqueueLinks, WorkerOp.dropPermit]

/-- Permit-count effect of one operation. -/
def permitDelta : WorkerOp → Int
  | WorkerOp.acquirePermit => 1
  | WorkerOp.dropPermit => -1
  | _ => 0

/-- Permits held after a sequence of operations. -/
def permits_held (ops : List WorkerOp) : Int :=
  (ops.map permitDelta).sum

/-- Whether the worker holds a throttle permit while running the first
occurrence of the given operation. -/
def holds_permit_during (ops : List WorkerOp) (op : WorkerOp) : Bool :=
  0 < permits_held (ops.takeWhile (fun x => x ≠ op))

/-
src/crawlers/web.rs: watchdog and result-channel lifetime.

The result channel closes exactly when every Sender handle has been
dropped.  spawn_workers gives each of the num_workers workers a clone
of result_tx and moves the original into the monitor task, so
num_workers + 1 handles are live when the watchdog fires.  The
watchdog body (lines 144-161) runs drop(result_tx.clone()) when the
initial-page flag is still unset: it creates one more handle and drops
that same handle.
-/

/-- Number of live result-channel Sender handles after the watchdog's
grace period fires (src/crawlers/web.rs lines 144-161), given the
worker count and the initial-page-processed flag: starting from
num_workers + 1 live handles, the watchdog executes
drop(result_tx.clone()) when the flag is unset, which adds one handle
(the clone) and then drops exactly that handle. -/
def senders_after_watchdog (num_workers : Nat)
    (initial_page_processed : Bool) : Nat :=
  let senders := num_workers + 1
  if initial_page_processed then
    senders
  else
    senders + 1 - 1

/-- The mpsc result channel is closed iff no Sender handle is live. -/
def channel_closed (senders : Nat) : Bool :=
  senders == 0

/-
Concrete instances used by the claims.
-/

/-- A scope filter with no restrictions (allow_external true, no
domain/path requirement, no patterns). -/
def openFilter : UrlFilter :=
  ⟨true, none, none, [], []⟩

/-- A discovered link carrying a fragment. -/
def fragLink : Url :=
  ⟨"https", some "example.com", "/a", none, some "x"⟩

/-- fragLink with its fragment stripped. -/
def fragLinkNorm : Url :=
  ⟨"https", some "example.com", "/a", none, none⟩

/-- The filter create_url_filter builds for the root URL
https://example.com/ with default config (allow_external false):
required domain example.com, required path prefix "/", no include
patterns, the default asset exclude pattern. -/
def rootedFilter : UrlFilter :=
  ⟨false, some "example.com", some "/", [], [defaultAssetMatcher]⟩

/-- A seed URL carrying a fragment: https://example.com/#top . -/
def seedWithFrag : Url :=
  ⟨"https", some "example.com", "/", none, some "top"⟩

/-- The fragment-free form of seedWithFrag: https://example.com/ . -/
def seedNoFrag : Url :=
  ⟨"https", some "example.com", "/", none, none⟩

/-- A web where the seed page links back to itself (e.g. an anchor
href "#top" resolved against the page URL) and the fragment-free page
has no links. -/
def selfLinkWeb : Url → Option (List Url) := fun u =>
  if u = seedWithFrag then some [seedWithFrag]
  else if u = seedNoFrag then some []
  else none

/-- The filter of the exclude-precedence example: include pattern
/docs/.*\.html$ , exclude pattern /docs/draft/ , no domain or path
restriction (matching the repository's test_regex_patterns fixture). -/
def regexExampleFilter : UrlFilter :=
  ⟨true, none, none, [docsHtmlMatcher], [docsDraftMatcher]⟩

/-- https://example.com/docs/draft/page.html . -/
def draftPageUrl : Url :=
  ⟨"https", some "example.com", "/docs/draft/page.html", none, none⟩

/-- https://example.com/docs/page.html . -/
def docsPageUrl : Url :=
  ⟨"https", some "example.com", "/docs/page.html", none, none⟩

/-- https://example.com/docs/page.txt : matches no include pattern. -/
def docsTxtUrl : Url :=
  ⟨"https", some "example.com", "/docs/page.txt", none, none⟩

/-- Seed for the implicit-seed claim: https://other.com/start#frag ,
outside the required domain of rootedFilter. -/
def outsideSeed : Url :=
  ⟨"https", some "other.com", "/start", none, some "frag"⟩

/-- A link on the seed page that the scope filter rejects. -/
def rejectedLink : Url :=
  ⟨"https", some "other.com", "/next", none, none⟩

/-- A link on the seed page that the scope filter accepts, carrying a
fragment. -/
def acceptedLink : Url :=
  ⟨"https", some "example.com", "/p", none, some "sec"⟩

/-- acceptedLink after normalization. -/
def acceptedLinkNorm : Url :=
  ⟨"https", some "example.com", "/p", none, none⟩

/-- Web for the implicit-seed claim: the out-of-scope seed yields one
rejected and one accepted link; the accepted link's page has no
links. -/
def outsideSeedWeb : Url → Option (List Url) := fun u =>
  if u = outsideSeed then some [rejectedLink, acceptedLink]
  else if u = acceptedLinkNorm then some []
  else none

/-- An extractor stub for the Extractor boundary that always reports a
link, to witness that the text path never consults it. -/
def adversarialExtract : String → ParseResult :=
  fun _ => ⟨"ignored", ["spurious"]⟩

/-
Helper lemmas (shared; none of them is a claim theorem).
-/

/-- process_url returns after its first scrape call, with zero
reconnect attempts, whatever the transport does: on the first loop
iteration reconnect_attempted is still false, so the break condition
scrape_result.is_some() || !reconnect_attempted holds whether or not
the scrape succeeded. -/
theorem process_url_eq_first_scrape (t : ScrapeOracle) :
    process_url t = ⟨t.scrapeOutcome 0, 0, 1⟩ := by
  simp [process_url, Id.run]

/-- The enqueue gate never modifies the visited set. -/
theorem enqueue_fst (f : UrlFilter) (l : Url) (st : List Url × List Url) :
    (enqueue_discovered_link f l st).1 = st.1 := by
  simp only [enqueue_discovered_link]
  split
  · rfl
  · split <;> rfl

/-- Folding the enqueue gate over any link list never modifies the
visited set. -/
theorem enqueue_fold_fst (f : UrlFilter) :
    ∀ (links : List Url) (v q : List Url),
      (links.foldl (fun st l => enqueue_discovered_link f l st) (v, q)).1 = v := by
  intro links
  induction links with
  | nil => intro v q; rfl
  | cons l rest ih =>
    intro v q
    rw [List.foldl_cons]
    have hpair : enqueue_discovered_link f l (v, q) =
        (v, (enqueue_discovered_link f l (v, q)).2) :=
      Prod.ext (enqueue_fst f l (v, q)) rfl
    rw [hpair, ih]

/-- The fetched sublist selected by a sequence of mark_url_as_visited
calls is duplicate-free and disjoint from the starting visited set. -/
theorem run_marks_nodup_disjoint :
    ∀ (seq visited : List Url),
      (run_marks seq visited).Nodup ∧
      ∀ x ∈ run_marks seq visited, x ∉ visited := by
  intro seq
  induction seq with
  | nil => intro v; simp [run_marks]
  | cons u rest ih =>
    intro v
    by_cases h : u ∈ v
    · have he : run_marks (u :: rest) v = run_marks rest v := by
        simp [run_marks, mark_url_as_visited, h]
      rw [he]
      exact ih v
    · have he : run_marks (u :: rest) v = u :: run_marks rest (u :: v) := by
        simp [run_marks, mark_url_as_visited, h]
      rw [he]
      obtain ⟨hnd, hdisj⟩ := ih (u :: v)
      refine ⟨List.nodup_cons.mpr ⟨?_, hnd⟩, ?_⟩
      · intro hu
        exact hdisj u hu (List.mem_cons_self u v)
      · intro x hx
        rcases List.mem_cons.mp hx with rfl | hx'
        · exact h
        · intro hxv
          exact hdisj x hx' (List.mem_cons.mpr (Or.inr hxv))

/-- One crawl step preserves the invariant that the emitted URL list
is duplicate-free and contained in the visited set. -/
theorem crawl_step_inv (web : Url → Option (List Url)) (f : UrlFilter)
    (s : CrawlState) (h1 : s.emitted.Nodup)
    (h2 : ∀ x ∈ s.emitted, x ∈ s.visited) :
    (crawl_step web f s).emitted.Nodup ∧
    ∀ x ∈ (crawl_step web f s).emitted, x ∈ (crawl_step web f s).visited := by
  cases hq : s.queue with
  | nil =>
    have hcs : crawl_step web f s = s := by
      simp [crawl_step, hq]
    rw [hcs]
    exact ⟨h1, h2⟩
  | cons url rest =>
    by_cases hv : url ∈ s.visited
    · have hm : mark_url_as_visited url s.visited = (false, s.visited) := by
        simp [mark_url_as_visited, hv]
      have hcs : crawl_step web f s = { s with queue := rest } := by
        simp [crawl_step, hq, hm]
      rw [hcs]
      exact ⟨h1, h2⟩
    · have hm : mark_url_as_visited url s.visited = (true, url :: s.visited) := by
        simp [mark_url_as_visited, hv]
      cases hw : web url with
      | none =>
        have hcs : crawl_step web f s = ⟨url :: s.visited, rest, s.emitted⟩ := by
          simp [crawl_step, hq, hm, hw]
        rw [hcs]
        exact ⟨h1, fun x hx => List.mem_cons.mpr (Or.inr (h2 x hx))⟩
      | some links =>
        have hf := enqueue_fold_fst f links (url :: s.visited) rest
        have hcs : crawl_step web f s =
            ⟨url :: s.visited,
             (links.foldl (fun st l => enqueue_discovered_link f l st)
               (url :: s.visited, rest)).2,
             s.emitted ++ [url]⟩ := by
          simp [crawl_step, hq, hm, hw, hf]
        rw [hcs]
        constructor
        · refine List.Nodup.append h1 (List.nodup_singleton url) ?_
          intro x hx hx'
          rcases List.mem_singleton.mp hx' with rfl
          exact hv (h2 x hx)
        · intro x hx
          rcases List.mem_append.mp hx with hx' | hx'
          · exact List.mem_cons.mpr (Or.inr (h2 x hx'))
          · rcases List.mem_singleton.mp hx' with rfl
            exact List.mem_cons_self x s.visited

/-- Every run of the crawl model keeps the emitted URL list
duplicate-free. -/
theorem run_crawl_emitted_nodup (web : Url → Option (List Url))
    (f : UrlFilter) :
    ∀ (fuel : Nat) (s : CrawlState), s.emitted.Nodup →
      (∀ x ∈ s.emitted, x ∈ s.visited) →
      (run_crawl web f fuel s).emitted.Nodup := by
  intro fuel
  induction fuel with
  | zero =>
    intro s h1 _
    exact h1
  | succ n ih =>
    intro s h1 h2
    have hstep := crawl_step_inv web f s h1 h2
    exact ih (crawl_step web f s) hstep.1 hstep.2

/-
Claim theorems.
-/

/-- C1: under a session transport that fails with the session-lost
signature on every call, process_url performs ZERO reconnect attempts
(the claim says exactly one) and a single scrape call (the claim says
the URL is retried once), returning no page; indeed for every
transport process_url returns after its first scrape with no reconnect
call, because the loop's break condition
scrape_result.is_some() || !reconnect_attempted always holds on the
first iteration, making the retry iteration dead code. -/
theorem c1_process_url_never_reconnects :
    process_url alwaysSessionLost = ⟨none, 0, 1⟩ ∧
    ∀ t : ScrapeOracle, process_url t = ⟨t.scrapeOutcome 0, 0, 1⟩ :=
  ⟨process_url_eq_first_scrape alwaysSessionLost,
   process_url_eq_first_scrape⟩

/-- C4: when the initial-page flag is still unset at the end of the
watchdog's grace period, the watchdog leaves the result channel open:
drop(result_tx.clone()) drops only the clone it just created, so with
4 workers all 5 sender handles stay live and the output stream is not
closed; in general the watchdog changes the live sender count of any
configuration not at all. -/
theorem c4_watchdog_never_closes_channel :
    channel_closed (senders_after_watchdog 4 false) = false ∧
    senders_after_watchdog 4 false = 5 ∧
    ∀ (w : Nat) (flag : Bool), senders_after_watchdog w flag = w + 1 := by
  refine ⟨rfl, rfl, ?_⟩
  intro w flag
  cases flag <;> simp [senders_after_watchdog]

/-- C5 counterexample: the worker holds the throttle permit while it
emits the PageRecord and while it enqueues the discovered links — the
_permit binding of worker_processing_loop is dropped only at the end
of the loop-iteration scope, after process_discovered_page returned,
so the claim that no permit is held during link post-processing is
false. -/
theorem c5_counterexample_permit_held_in_postprocessing :
    holds_permit_during worker_iteration WorkerOp.enqueueLinks = true ∧
    holds_permit_during worker_iteration WorkerOp.emitRecord = true := by
  decide

/-- C5 amended: the throttle permit acquired at the start of an
iteration is held through connecting, fetching, emitting the
PageRecord and enqueueing the discovered links, and is released
exactly when the iteration ends (net permit change zero). -/
theorem c5_amended_permit_spans_whole_iteration :
    holds_permit_during worker_iteration WorkerOp.connectClient = true ∧
    holds_permit_during worker_iteration WorkerOp.fetchUrl = true ∧
    holds_permit_during worker_iteration WorkerOp.dropPermit = true ∧
    permits_held worker_iteration = 0 := by
  decide

/-- C7: normalize_url strips exactly the fragment and preserves
scheme, host, path and query verbatim; it is idempotent, and two URLs
differing only in their fragment normalize to the same key. -/
theorem c7_normalize_url_strips_only_fragment (f : UrlFilter) (u : Url)
    (g1 g2 : Option String) :
    (normalize_url f u).scheme = u.scheme ∧
    (normalize_url f u).host = u.host ∧
    (normalize_url f u).path = u.path ∧
    (normalize_url f u).query = u.query ∧
    (normalize_url f u).fragment = none ∧
    normalize_url f (normalize_url f u) = normalize_url f u ∧
    normalize_url f { u with fragment := g1 } =
      normalize_url f { u with fragment := g2 } :=
  ⟨rfl, rfl, rfl, rfl, rfl, rfl, rfl⟩

/-- C2 counterexample: the enqueue gate of process_discovered_page
only reads the visited set, it does not insert.  From an empty state,
enqueueing the same discovered link twice sends it to the frontier
twice: after the first (winning) enqueue the visited set is still
empty, so the URL was not inserted before a second enqueue was
permitted, and both enqueuers win — refuting atomic
check-and-insert-at-enqueue. -/
theorem c2_counterexample_enqueue_gate_does_not_insert :
    (enqueue_discovered_link openFilter fragLink ([], [])).1 = [] ∧
    (enqueue_discovered_link openFilter fragLink ([], [])).2 = [fragLinkNorm] ∧
    (enqueue_discovered_link openFilter fragLink
        (enqueue_discovered_link openFilter fragLink ([], []))).2 =
      [fragLinkNorm, fragLinkNorm] := by
  decide

/-- C2 amended: enqueue of a discovered link is a no-op (not an error)
when the normalized URL is already in the visited set, and the gate
never mutates the visited set — the atomic check-and-insert that makes
exactly one claimant win happens at dequeue, in mark_url_as_visited,
which returns true at most once per URL. -/
theorem c2_amended_gate_checks_only (f : UrlFilter) (l u : Url)
    (v q : List Url) :
    (normalize_url f l ∈ v → enqueue_discovered_link f l (v, q) = (v, q)) ∧
    (enqueue_discovered_link f l (v, q)).1 = v ∧
    ((mark_url_as_visited u v).1 = true →
      (mark_url_as_visited u (mark_url_as_visited u v).2).1 = false) := by
  refine ⟨?_, enqueue_fst f l (v, q), ?_⟩
  · intro h
    by_cases hc : should_crawl f l <;>
      simp [enqueue_discovered_link, hc, h]
  · intro h
    by_cases hv : u ∈ v
    · simp [mark_url_as_visited, hv] at h
    · simp [mark_url_as_visited, hv]

/-- C2 witness: the amended statement at a concrete input — enqueue of
an already-visited link is a no-op, and a second mark of the same URL
returns false. -/
theorem c2_amended_witness :
    enqueue_discovered_link openFilter fragLink ([fragLinkNorm], []) =
      ([fragLinkNorm], []) ∧
    (mark_url_as_visited fragLinkNorm
        (mark_url_as_visited fragLinkNorm []).2).1 = false :=
  ⟨(c2_amended_gate_checks_only openFilter fragLink fragLinkNorm
      [fragLinkNorm] []).1 (by decide),
   (c2_amended_gate_checks_only openFilter fragLink fragLinkNorm
      [] []).2.2 (by decide)⟩

/-- C3 counterexample: a crawl seeded with the fragment-bearing URL
https://example.com/#top whose page links back to itself emits two
PageRecords, for https://example.com/#top and for the normalized
https://example.com/ — two distinct URL strings with the same
normalized form, so a normalized URL appears twice among the
successfully fetched records. -/
theorem c3_counterexample_normalized_url_fetched_twice :
    (run_crawl selfLinkWeb rootedFilter 2 (crawl_start seedWithFrag)).emitted =
      [seedWithFrag, seedNoFrag] ∧
    seedWithFrag ≠ seedNoFrag ∧
    normalize_url rootedFilter seedWithFrag =
      normalize_url rootedFilter seedNoFrag := by
  decide

/-- C3 amended: mark_url_as_visited returns true at most once per
distinct URL string — under any serialization of the lock-protected
mark calls the list of URLs actually fetched is duplicate-free, and in
every crawl run no URL string appears twice among the emitted
PageRecords; uniqueness of the NORMALIZED form can fail only through
the seed, which enters the frontier unnormalized (see the
counterexample). -/
theorem c3_amended_at_most_once_per_url_string :
    (∀ (seq visited : List Url), (run_marks seq visited).Nodup) ∧
    (∀ (u : Url) (v : List Url), (mark_url_as_visited u v).1 = true →
      (mark_url_as_visited u (mark_url_as_visited u v).2).1 = false) ∧
    (∀ (web : Url → Option (List Url)) (f : UrlFilter) (fuel : Nat)
        (seed : Url),
      ((run_crawl web f fuel (crawl_start seed)).emitted).Nodup) := by
  refine ⟨fun seq v => (run_marks_nodup_disjoint seq v).1, ?_, ?_⟩
  · intro u v h
    by_cases hv : u ∈ v
    · simp [mark_url_as_visited, hv] at h
    · simp [mark_url_as_visited, hv]
  · intro web f fuel seed
    exact run_crawl_emitted_nodup web f fuel (crawl_start seed)
      (by simp [crawl_start]) (by simp [crawl_start])

/-- C3 witness: the amended statement at a concrete input — marking
the seed URL a second time returns false. -/
theorem c3_amended_witness :
    (mark_url_as_visited seedWithFrag
        (mark_url_as_visited seedWithFrag []).2).1 = false :=
  c3_amended_at_most_once_per_url_string.2.1 seedWithFrag [] (by decide)

/-- C6: exclusion patterns take precedence in should_crawl — any
exclude match rejects the URL regardless of include matches; with a
non-empty include list a URL matching no include pattern is rejected;
with an empty include list the include stage imposes nothing (the
decision is exactly the domain, path and exclude tests); and on the
spec's example, include /docs/.*\.html$ with exclude /docs/draft/
rejects https://example.com/docs/draft/page.html and accepts
https://example.com/docs/page.html . -/
theorem c6_exclude_patterns_take_precedence (f : UrlFilter) (url : Url) :
    ((∃ r ∈ f.excludeMatchers, r url.render = true) →
      should_crawl f url = false) ∧
    (f.includeMatchers ≠ [] →
      (∀ r ∈ f.includeMatchers, r url.render = false) →
      should_crawl f url = false) ∧
    (f.includeMatchers = [] →
      should_crawl f url =
        (is_in_domain_scope f url && is_in_path_scope f url &&
         !(f.excludeMatchers.any (fun r => r url.render)))) ∧
    should_crawl regexExampleFilter draftPageUrl = false ∧
    should_crawl regexExampleFilter docsPageUrl = true := by
  refine ⟨?_, ?_, ?_, by decide, by decide⟩
  · intro h
    have hx : f.excludeMatchers.any (fun r => r url.render) = true := by
      rw [List.any_eq_true]
      obtain ⟨r, hr, ht⟩ := h
      exact ⟨r, hr, ht⟩
    simp [should_crawl, hx]
  · intro hne hall
    have hi : f.includeMatchers.any (fun r => r url.render) = false := by
      rw [List.any_eq_false]
      intro r hr
      simp [hall r hr]
    have hie : f.includeMatchers.isEmpty = false := by
      cases h' : f.includeMatchers with
      | nil => exact absurd h' hne
      | cons a l => simp
    simp [should_crawl, hi, hie]
  · intro he
    have hie : f.includeMatchers.isEmpty = true := by simp [he]
    cases hd : is_in_domain_scope f url <;>
      cases hp : is_in_path_scope f url <;>
        cases hex : f.excludeMatchers.any (fun r => r url.render) <;>
          simp [should_crawl, hd, hp, hex, hie]

/-- C6 witness: the three hypothetical parts applied at concrete
inputs — the draft page is excluded by the exclude matcher, the .txt
page matches no include pattern and is rejected, and under the
pattern-free filter should_crawl is exactly the domain-path-exclude
test. -/
theorem c6_witness :
    should_crawl regexExampleFilter draftPageUrl = false ∧
    should_crawl regexExampleFilter docsTxtUrl = false ∧
    should_crawl openFilter fragLink =
      (is_in_domain_scope openFilter fragLink &&
       is_in_path_scope openFilter fragLink &&
       !(openFilter.excludeMatchers.any (fun r => r fragLink.render))) :=
  ⟨(c6_exclude_patterns_take_precedence regexExampleFilter draftPageUrl).1
     ⟨docsDraftMatcher, List.mem_singleton.mpr rfl, by decide⟩,
   (c6_exclude_patterns_take_precedence regexExampleFilter docsTxtUrl).2.1
     (by simp [regexExampleFilter])
     (by
       intro r hr
       rcases List.mem_singleton.mp hr with rfl
       decide),
   (c6_exclude_patterns_take_precedence openFilter fragLink).2.2.1 rfl⟩

/-- The text parser never reports links, whatever its input and
options: both branches of parse_with_options build the result through
ParseResult::content_only. -/
theorem parse_with_options_links_nil (text : String)
    (options : TextParserOptions) :
    (parse_with_options text options).links = [] := by
  unfold parse_with_options
  split <;> rfl

/-- C8: content kind is classified from the URL string alone, and a
resource classified as Text (URLs ending in .txt, .yaml or .yml, or
containing /_sources/) never yields outbound links: for every body
string — and every behaviour of the HTML extractor — the PageData
built by scrape_text_file has an empty links list. -/
theorem c8_text_resources_never_yield_links :
    (∀ (htmlExtract : String → ParseResult) (url body : String),
      ParserType.from_url url = ParserType.Text →
      (scrape_text_file_record htmlExtract url body).links = []) ∧
    (∀ url : String, strEndsWith url ".txt" = true →
      ParserType.from_url url = ParserType.Text) ∧
    (∀ url : String,
      (strEndsWith url ".yaml" = true ∨ strEndsWith url ".yml" = true) →
      strEndsWith url ".txt" = false →
      ParserType.from_url url = ParserType.Text) ∧
    (∀ url : String, strContains url "/_sources/" = true →
      strEndsWith url ".txt" = false → strEndsWith url ".yaml" = false →
      strEndsWith url ".yml" = false → strEndsWith url ".pdf" = false →
      ParserType.from_url url = ParserType.Text) := by
  refine ⟨?_, ?_, ?_, ?_⟩
  · intro htmlExtract url body h
    simp only [scrape_text_file_record, parse_from_url_with_text_options, h,
      parseWithTextOptions]
    exact parse_with_options_links_nil body crawlTextOptions
  · intro url h
    simp [ParserType.from_url, h]
  · intro url h h1
    rcases h with h | h <;> simp [ParserType.from_url, h, h1]
  · intro url h h1 h2 h3 h4
    simp [ParserType.from_url, h, h1, h2, h3, h4]

/-- C8 witness: the classification and the empty links list at
concrete inputs, with an extractor stub that always reports a link (so
the Text path demonstrably never consults it). -/
theorem c8_witness :
    (scrape_text_file_record adversarialExtract
        "https://example.com/notes.txt" "see also /other.html").links = [] ∧
    ParserType.from_url "https://example.com/conf.yaml" = ParserType.Text ∧
    ParserType.from_url "https://example.com/a.txt" = ParserType.Text ∧
    ParserType.from_url "https://example.com/_sources/page" =
      ParserType.Text :=
  ⟨c8_text_resources_never_yield_links.1 adversarialExtract
     "https://example.com/notes.txt" "see also /other.html" (by decide),
   c8_text_resources_never_yield_links.2.2.1
     "https://example.com/conf.yaml" (Or.inl (by decide)) (by decide),
   c8_text_resources_never_yield_links.2.1
     "https://example.com/a.txt" (by decide),
   c8_text_resources_never_yield_links.2.2.2
     "https://example.com/_sources/page" (by decide) (by decide)
     (by decide) (by decide) (by decide)⟩

/-- Leading blank lines (empty strings) in the line list are consumed
by the paragraph splitter without effect while the current paragraph
is empty. -/
theorem splitParasAux_replicate_blank :
    ∀ (k : Nat) (rest : List String) (ps : List (List String)),
      splitParasAux (List.replicate k "" ++ rest) ps [] =
        splitParasAux rest ps [] := by
  intro k
  induction k with
  | zero =>
    intro rest ps
    rfl
  | succ n ih =>
    intro rest ps
    have h : splitParasAux (List.replicate (n + 1) "" ++ rest) ps [] =
        splitParasAux (List.replicate n "" ++ rest) ps [] := rfl
    rw [h, ih]

/-- C9: with paragraph preservation enabled (the options the crawler
uses), the input of two paragraphs separated by three blank lines
parses to the two paragraphs separated by exactly one blank line; and
for ANY number of blank lines between the two paragraphs the pipeline
produces the same single-blank-line output. -/
theorem c9_blank_lines_collapse_to_one :
    (parse_with_options "Paragraph 1.\n\n\n\nParagraph 2."
        crawlTextOptions).content = "Paragraph 1.\n\nParagraph 2." ∧
    ∀ k : Nat,
      join_paragraphs
        (process_paragraphs
          (splitParasAux
            ("Paragraph 1." ::
              (List.replicate (k + 1) "" ++ ["Paragraph 2."])) [] [])
          crawlTextOptions)
        crawlTextOptions = "Paragraph 1.\n\nParagraph 2." := by
  constructor
  · decide
  · intro k
    have h1 : splitParasAux
        ("Paragraph 1." ::
          (List.replicate (k + 1) "" ++ ["Paragraph 2."])) [] [] =
        splitParasAux (List.replicate k "" ++ ["Paragraph 2."])
          [["Paragraph 1."]] [] := rfl
    rw [h1, splitParasAux_replicate_blank]
    decide

/-- C10: the seed URL enters the frontier exactly as configured —
unfiltered and unnormalized: with a scope filter that rejects the
seed, a run still fetches and emits the seed, records it in the
visited set with its fragment intact, while discovered links are
subjected to should_crawl (the rejected link is never queued or
fetched) and normalized before enqueueing (the accepted fragment-
bearing link is fetched and emitted in fragment-free form). -/
theorem c10_seed_bypasses_filter_and_normalization :
    should_crawl rootedFilter outsideSeed = false ∧
    (crawl_start outsideSeed).queue = [outsideSeed] ∧
    (run_crawl outsideSeedWeb rootedFilter 2
        (crawl_start outsideSeed)).emitted =
      [outsideSeed, acceptedLinkNorm] ∧
    outsideSeed ∈ (run_crawl outsideSeedWeb rootedFilter 2
        (crawl_start outsideSeed)).visited ∧
    outsideSeed.fragment = some "frag" ∧
    should_crawl rootedFilter rejectedLink = false ∧
    rejectedLink ∉ (run_crawl outsideSeedWeb rootedFilter 2
        (crawl_start outsideSeed)).queue ∧
    rejectedLink ∉ (run_crawl outsideSeedWeb rootedFilter 2
        (crawl_start outsideSeed)).visited ∧
    acceptedLink.fragment = some "sec" ∧
    acceptedLinkNorm = normalize_url rootedFilter acceptedLink ∧
    acceptedLinkNorm.fragment = none := by
  decide
